import Mathlib

/-!
Shallow embedding of the NEO extraction pipeline (`models.py`, `extract.py`).

Python exceptions are modelled with `Except PyError`; Python `float` values
with `PyFloat` (a rational, an infinity, or the NaN sentinel); raised
`ValueError` / `AttributeError` / `IndexError` with the `PyError` cases.
-/

inductive PyError where
  | valueError
  | attributeError
  | indexError
deriving DecidableEq

/-- A Python float as produced by parsing a string: the NaN sentinel, a signed
infinity, or an ordinary (rational-valued) number. -/
inductive PyFloat where
  | nan
  | inf (neg : Bool)
  | num (q : ℚ)
deriving DecidableEq

deriving instance DecidableEq for Except

/-- Numeric value of a list of decimal digit characters. -/
def digitsVal (ds : List Char) : Nat :=
  ds.foldl (fun n c => 10 * n + (c.toNat - 48)) 0

/-- Strip leading and trailing whitespace, as `str.strip()` does before
`float` parses a string. -/
def pyStrip (s : String) : List Char :=
  ((s.toList.dropWhile Char.isWhitespace).reverse.dropWhile Char.isWhitespace).reverse

/-- Parse an optional exponent part (`e`/`E`, optional sign, digits); the
remainder must be consumed entirely. An absent exponent is `0`. -/
def parseExpPart (cs : List Char) : Option ℤ :=
  match cs with
  | [] => some 0
  | e :: rest =>
    if e = 'e' ∨ e = 'E' then
      let signed : Bool × List Char :=
        match rest with
        | '+' :: r => (false, r)
        | '-' :: r => (true, r)
        | r => (false, r)
      let ds := signed.2.takeWhile Char.isDigit
      let tail := signed.2.dropWhile Char.isDigit
      if ds = [] ∨ tail ≠ [] then none
      else if signed.1 then some (-(digitsVal ds : ℤ)) else some (digitsVal ds : ℤ)
    else none

/-- Exact rational value of a decimal numeral with mantissa digits worth `m`,
`f` digits after the point and decimal exponent `e`:
`m / 10 ^ f * 10 ^ e`. -/
def numeralVal (m : ℕ) (f : ℕ) (e : ℤ) : ℚ :=
  mkRat (m * 10 ^ e.toNat) (10 ^ f * 10 ^ (-e).toNat)

/-- Parse an unsigned decimal numeral `digits [. digits] [exp]` (at least one
digit on some side of the point), as accepted by Python `float`.
Digit-grouping underscores are not modelled. -/
def parseNumeral (cs : List Char) : Option ℚ :=
  let ip := cs.takeWhile Char.isDigit
  let r1 := cs.dropWhile Char.isDigit
  match r1 with
  | '.' :: r2 =>
    let fp := r2.takeWhile Char.isDigit
    let r3 := r2.dropWhile Char.isDigit
    if ip = [] ∧ fp = [] then none
    else (parseExpPart r3).map (numeralVal (digitsVal (ip ++ fp)) fp.length)
  | _ =>
    if ip = [] then none
    else (parseExpPart r1).map (numeralVal (digitsVal ip) 0)

/-- Embedding of the Python builtin `float` applied to a string: strip
whitespace, take an optional sign, then accept a NaN spelling, an infinity
spelling, or a decimal numeral; anything else raises `ValueError`. -/
def pyFloat (s : String) : Except PyError PyFloat :=
  let cs := pyStrip s
  let signed : Bool × List Char :=
    match cs with
    | '+' :: r => (false, r)
    | '-' :: r => (true, r)
    | r => (false, r)
  let lower := signed.2.map Char.toLower
  if lower = ['n', 'a', 'n'] then .ok .nan
  else if lower = ['i', 'n', 'f'] ∨ lower = ['i', 'n', 'f', 'i', 'n', 'i', 't', 'y'] then
    .ok (.inf signed.1)
  else
    match parseNumeral signed.2 with
    | some q => .ok (.num (if signed.1 then -q else q))
    | none => .error .valueError

/-- Modelled from the spec: the temporal value produced by `cd_to_datetime`
(`helpers.py`, not among the sources) — a calendar date and minute-precision
time of day. -/
structure PyDatetime where
  year : Nat
  month : Nat
  day : Nat
  hour : Nat
  minute : Nat
deriving DecidableEq

/-- The three-letter month abbreviations, in month order. -/
def monthsAbbrev : List (List Char) :=
  [['J', 'a', 'n'], ['F', 'e', 'b'], ['M', 'a', 'r'], ['A', 'p', 'r'],
   ['M', 'a', 'y'], ['J', 'u', 'n'], ['J', 'u', 'l'], ['A', 'u', 'g'],
   ['S', 'e', 'p'], ['O', 'c', 't'], ['N', 'o', 'v'], ['D', 'e', 'c']]

def monthNumber (a b c : Char) : Option Nat :=
  match monthsAbbrev.findIdx? (fun mn => mn = [a, b, c]) with
  | some i => some (i + 1)
  | none => none

/-- Modelled from the spec: `cd_to_datetime` (`helpers.py`, not among the
sources) parses the fixed shape `YYYY-Mon-DD hh:mm` (month as a short name, no
seconds) and raises a `ValueError` on any other shape; calendar range
validation is elided. -/
def cd_to_datetime (s : String) : Except PyError PyDatetime :=
  match s.toList with
  | [y1, y2, y3, y4, '-', m1, m2, m3, '-', d1, d2, ' ', h1, h2, ':', n1, n2] =>
    if y1.isDigit && y2.isDigit && y3.isDigit && y4.isDigit && d1.isDigit && d2.isDigit
        && h1.isDigit && h2.isDigit && n1.isDigit && n2.isDigit then
      match monthNumber m1 m2 m3 with
      | some m =>
        .ok ⟨digitsVal [y1, y2, y3, y4], m, digitsVal [d1, d2],
             digitsVal [h1, h2], digitsVal [n1, n2]⟩
      | none => .error .valueError
    else .error .valueError
  | _ => .error .valueError

def pad2 (n : Nat) : String := if n < 10 then "0" ++ toString n else toString n

def pad4 (n : Nat) : String :=
  if n < 10 then "000" ++ toString n
  else if n < 100 then "00" ++ toString n
  else if n < 1000 then "0" ++ toString n
  else toString n

/-- Modelled from the spec: `datetime_to_str` (`helpers.py`, not among the
sources) formats a temporal value back to `YYYY-MM-DD hh:mm` — zero-padded
numeric month, minute precision, no seconds. -/
def datetime_to_str (t : PyDatetime) : String :=
  pad4 t.year ++ "-" ++ pad2 t.month ++ "-" ++ pad2 t.day ++ " " ++
    pad2 t.hour ++ ":" ++ pad2 t.minute

/-- A JSON-serializable Python value, as produced by the `serialize` methods. -/
inductive JValue where
  | str (s : String)
  | float (f : PyFloat)
  | bool (b : Bool)
  | null
  | obj (fields : List (String × JValue))

mutual
/-- `models.NearEarthObject`: designation, optional name, diameter (possibly
the NaN sentinel), hazardous flag, and the collection of linked approaches. -/
inductive NearEarthObject where
  | mk (designation : String) (name : Option String) (diameter : PyFloat)
       (hazardous : Bool) (approaches : List CloseApproach) : NearEarthObject

/-- `models.CloseApproach`: the raw designation of its NEO, approach time,
distance, velocity, and the (initially absent) reference to its NEO. -/
inductive CloseApproach where
  | mk (_designation : String) (time : PyDatetime) (distance : PyFloat)
       (velocity : PyFloat) (neo : Option NearEarthObject) : CloseApproach
end

def NearEarthObject.designation : NearEarthObject → String
  | .mk d _ _ _ _ => d

def NearEarthObject.name : NearEarthObject → Option String
  | .mk _ n _ _ _ => n

def NearEarthObject.diameter : NearEarthObject → PyFloat
  | .mk _ _ d _ _ => d

def NearEarthObject.hazardous : NearEarthObject → Bool
  | .mk _ _ _ h _ => h

def NearEarthObject.approaches : NearEarthObject → List CloseApproach
  | .mk _ _ _ _ a => a

def CloseApproach._designation : CloseApproach → String
  | .mk d _ _ _ _ => d

def CloseApproach.time : CloseApproach → PyDatetime
  | .mk _ t _ _ _ => t

def CloseApproach.distance : CloseApproach → PyFloat
  | .mk _ _ d _ _ => d

def CloseApproach.velocity : CloseApproach → PyFloat
  | .mk _ _ _ v _ => v

def CloseApproach.neo : CloseApproach → Option NearEarthObject
  | .mk _ _ _ _ n => n

/-- `NearEarthObject.__init__`: keep the designation verbatim, turn an empty
name into `None`, parse a non-empty diameter with `float` (empty becomes the
NaN sentinel), compare the hazardous flag against the exact string `"Y"`, and
start with an empty approach collection. A `float` failure propagates and no
object is produced. -/
def NearEarthObject.init (designation name diameter hazardous : String) :
    Except PyError NearEarthObject :=
  (if diameter = "" then Except.ok PyFloat.nan else pyFloat diameter) >>= fun d =>
    Except.ok (.mk designation (if name = "" then none else some name) d
      (hazardous == "Y") [])

/-- Truthiness of `self.name` (`None` or a string) as Python `not` tests it. -/
def pyTruthyOptStr : Option String → Bool
  | none => false
  | some s => !(s == "")

/-- `NearEarthObject.fullname`: the designation alone when `self.name` is
falsy, else `"<designation> (<name>)"`. -/
def NearEarthObject.fullname (n : NearEarthObject) : String :=
  if pyTruthyOptStr n.name then n.designation ++ " (" ++ n.name.getD "" ++ ")"
  else n.designation

/-- `NearEarthObject.serialize`: the four-key mapping exported for this NEO. -/
def NearEarthObject.serialize (n : NearEarthObject) : List (String × JValue) :=
  [("designation", .str n.designation),
   ("name", match n.name with | none => JValue.null | some s => .str s),
   ("diameter_km", .float n.diameter),
   ("potentially_hazardous", .bool n.hazardous)]

/-- `CloseApproach.__init__`: keep the designation verbatim, parse the time
with `cd_to_datetime` and the distance and velocity with `float`, and start
with an absent `neo` reference. Any parse failure propagates and no object is
produced. -/
def CloseApproach.init (designation time distance velocity : String) :
    Except PyError CloseApproach := do
  let t ← cd_to_datetime time
  let d ← pyFloat distance
  let v ← pyFloat velocity
  pure (.mk designation t d v none)

def CloseApproach.time_str (ca : CloseApproach) : String :=
  datetime_to_str ca.time

/-- `CloseApproach.serialize`: the exported mapping, whose `neo` entry is the
nested serialization of the linked NEO; when `self.neo` is `None` the method
call `self.neo.serialize()` raises an `AttributeError`. -/
def CloseApproach.serialize (ca : CloseApproach) :
    Except PyError (List (String × JValue)) :=
  match ca.neo with
  | none => .error .attributeError
  | some n =>
    .ok [("datetime_utc", .str ca.time_str),
         ("distance_au", .float ca.distance),
         ("velocity_km_s", .float ca.velocity),
         ("neo", .obj n.serialize)]

/-- One row of the tabular NEO source, projected to the four named fields
`load_neos` reads (`pdes`, `name`, `diameter`, `pha`); field values are
strings, absence is an empty string. -/
structure NeoRow where
  pdes : String
  name : String
  diameter : String
  pha : String

/-- `extract.load_neos`: build one `NearEarthObject` per row, in source order;
the first construction failure propagates and no collection is returned. -/
def load_neos : List NeoRow → Except PyError (List NearEarthObject)
  | [] => .ok []
  | r :: rest => do
    let neo ← NearEarthObject.init r.pdes r.name r.diameter r.pha
    let neos ← load_neos rest
    .ok (neo :: neos)

/-- The columnar close-approach source: a header of field names and positional
data rows. -/
structure CadSource where
  fields : List String
  data : List (List String)

/-- `list.index`: position of the first occurrence, `ValueError` if absent. -/
def pyIndex (labels : List String) (x : String) : Except PyError Nat :=
  match labels.findIdx? (fun y => y == x) with
  | some i => .ok i
  | none => .error .valueError

/-- Positional subscript on a row, `IndexError` when out of range. -/
def pyGetItem (row : List String) (i : Nat) : Except PyError String :=
  match row[i]? with
  | some v => .ok v
  | none => .error .indexError

/-- The per-row loop of `load_approaches`, after the four field positions have
been resolved: build one `CloseApproach` per row, in source order. -/
def load_rows (di ti dsti vi : Nat) :
    List (List String) → Except PyError (List CloseApproach)
  | [] => .ok []
  | row :: rest => do
    let des ← pyGetItem row di
    let t ← pyGetItem row ti
    let dist ← pyGetItem row dsti
    let vel ← pyGetItem row vi
    let ca ← CloseApproach.init des t dist vel
    let cas ← load_rows di ti dsti vi rest
    .ok (ca :: cas)

/-- `extract.load_approaches`: resolve the positions of `des`, `cd`, `dist`,
`v_rel` in the header once, then build one `CloseApproach` per data row. -/
def load_approaches (src : CadSource) : Except PyError (List CloseApproach) := do
  let designation_index ← pyIndex src.fields "des"
  let time_index ← pyIndex src.fields "cd"
  let distance_index ← pyIndex src.fields "dist"
  let velocity_index ← pyIndex src.fields "v_rel"
  load_rows designation_index time_index distance_index velocity_index src.data

/-! ### Helper lemmas -/

@[simp] theorem bindExc_ok {ε α β : Type} (x : α) (f : α → Except ε β) :
    (Except.ok x >>= f) = f x := rfl

@[simp] theorem bindExc_error {ε α β : Type} (e : ε) (f : α → Except ε β) :
    ((Except.error e : Except ε α) >>= f) = Except.error e := rfl

/-- Characterization of a successful `NearEarthObject` construction. -/
theorem neoInit_ok {des nm d pha : String} {neo : NearEarthObject}
    (h : NearEarthObject.init des nm d pha = .ok neo) :
    ∃ df, (if d = "" then (Except.ok PyFloat.nan : Except PyError PyFloat)
             else pyFloat d) = .ok df ∧
      neo = NearEarthObject.mk des (if nm = "" then none else some nm) df
        (pha == "Y") [] := by
  unfold NearEarthObject.init at h
  rcases hd : (if d = "" then (Except.ok PyFloat.nan : Except PyError PyFloat)
      else pyFloat d) with e | df
  · rw [hd, bindExc_error] at h
    simp at h
  · rw [hd, bindExc_ok] at h
    refine ⟨df, rfl, ?_⟩
    cases h
    rfl

/-- Characterization of a successful `CloseApproach` construction. -/
theorem caInit_ok {des t dist vel : String} {ca : CloseApproach}
    (h : CloseApproach.init des t dist vel = .ok ca) :
    ∃ tv dv vv, cd_to_datetime t = .ok tv ∧ pyFloat dist = .ok dv ∧
      pyFloat vel = .ok vv ∧ ca = CloseApproach.mk des tv dv vv none := by
  unfold CloseApproach.init at h
  rcases ht : cd_to_datetime t with e | tv
  · rw [ht, bindExc_error] at h
    simp at h
  · rw [ht, bindExc_ok] at h
    rcases hd : pyFloat dist with e | dv
    · rw [hd, bindExc_error] at h
      simp at h
    · rw [hd, bindExc_ok] at h
      rcases hv : pyFloat vel with e | vv
      · rw [hv, bindExc_error] at h
        simp at h
      · rw [hv, bindExc_ok] at h
        simp only [pure] at h
        refine ⟨tv, dv, vv, rfl, rfl, rfl, ?_⟩
        cases h
        rfl

theorem pyIndex_not_mem {l : List String} {x : String} (h : x ∉ l) :
    pyIndex l x = .error .valueError := by
  unfold pyIndex
  have : l.findIdx? (fun y => y == x) = none := by
    rw [List.findIdx?_eq_none_iff]
    intro y hy
    simp only [beq_eq_false_iff_ne, ne_eq]
    intro hyx
    exact h (hyx ▸ hy)
  rw [this]

theorem pyIndex_cases (l : List String) (x : String) :
    (∃ i, pyIndex l x = .ok i) ∨ pyIndex l x = .error .valueError := by
  unfold pyIndex
  cases l.findIdx? (fun y => y == x) with
  | none => exact Or.inr rfl
  | some i => exact Or.inl ⟨i, rfl⟩

theorem pyIndex_ok_findIdx {l : List String} {x : String} {i : Nat}
    (h : pyIndex l x = .ok i) : l.findIdx? (fun y => y == x) = some i := by
  unfold pyIndex at h
  cases hf : l.findIdx? (fun y => y == x) with
  | none => rw [hf] at h; simp at h
  | some j => rw [hf] at h; cases h; rfl

theorem pyGetItem_ok {row : List String} {i : Nat} {v : String}
    (h : pyGetItem row i = .ok v) : row[i]? = some v := by
  unfold pyGetItem at h
  cases hg : row[i]? with
  | none => rw [hg] at h; simp at h
  | some w => rw [hg] at h; cases h; rfl

/-- `pyFloat` either succeeds or raises a `ValueError`. -/
theorem pyFloat_cases (s : String) :
    (∃ f, pyFloat s = .ok f) ∨ pyFloat s = .error .valueError := by
  simp only [pyFloat]
  split
  · exact Or.inl ⟨_, rfl⟩
  · split
    · exact Or.inl ⟨_, rfl⟩
    · split
      · exact Or.inl ⟨_, rfl⟩
      · exact Or.inr rfl

/-- `cd_to_datetime` either succeeds or raises a `ValueError`. -/
theorem cd_to_datetime_cases (s : String) :
    (∃ t, cd_to_datetime s = .ok t) ∨ cd_to_datetime s = .error .valueError := by
  unfold cd_to_datetime
  split
  · split
    · split
      · exact Or.inl ⟨_, rfl⟩
      · exact Or.inr rfl
    · exact Or.inr rfl
  · exact Or.inr rfl

/-! ### Claim theorems -/

/-- C1 (counterexample): the raw diameter string `"nan"` is not empty, yet the
constructed NEO's diameter is the NaN sentinel — Python `float("nan")` is NaN —
so "diameter is NaN if and only if the raw field is empty" fails. -/
theorem diameterNanIffEmpty_cex :
    (NearEarthObject.init "2020 AB" "" "nan" "N").map (fun n => n.diameter)
      = Except.ok PyFloat.nan ∧ ("nan" : String) ≠ "" := by
  exact ⟨rfl, by decide⟩

/-- C1 (amended): for every tabular row from which an NEO is produced, its
diameter is the NaN sentinel iff the raw `diameter` field is the empty string
or a NaN spelling accepted by the float parser; every non-empty raw value that
parses as a decimal number yields exactly that parsed value. -/
theorem neoDiameterNan_iff_emptyOrNanSpelling
    {des nm d pha : String} {neo : NearEarthObject}
    (h : NearEarthObject.init des nm d pha = .ok neo) :
    (neo.diameter = PyFloat.nan ↔ d = "" ∨ pyFloat d = .ok PyFloat.nan) ∧
    (∀ q : ℚ, pyFloat d = .ok (PyFloat.num q) → neo.diameter = PyFloat.num q) := by
  obtain ⟨df, hdf, rfl⟩ := neoInit_ok h
  by_cases hd : d = ""
  · rw [if_pos hd] at hdf
    cases hdf
    subst hd
    have hp : pyFloat "" = .error .valueError := by decide
    refine ⟨by simp [NearEarthObject.diameter], ?_⟩
    intro q hq
    rw [hp] at hq
    exact absurd hq (by simp)
  · rw [if_neg hd] at hdf
    constructor
    · constructor
      · intro hnan
        refine Or.inr ?_
        simp only [NearEarthObject.diameter] at hnan
        rw [hdf, hnan]
      · rintro (h1 | h1)
        · exact absurd h1 hd
        · rw [hdf] at h1
          exact Except.ok.inj h1
    · intro q hq
      rw [hdf] at hq
      cases hq
      simp [NearEarthObject.diameter]

/-- C1 (witness for the amended theorem): a concrete row whose diameter
`"16.84"` parses as a decimal number. -/
theorem neoDiameterNan_iff_emptyOrNanSpelling_witness :
    NearEarthObject.init "433" "Eros" "16.84" "N"
      = Except.ok (NearEarthObject.mk "433" (some "Eros")
          (PyFloat.num (mkRat 1684 100)) false []) ∧
    ((NearEarthObject.mk "433" (some "Eros") (PyFloat.num (mkRat 1684 100))
        false []).diameter = PyFloat.nan
      ↔ ("16.84" : String) = "" ∨ pyFloat "16.84" = .ok PyFloat.nan) := by
  have h : NearEarthObject.init "433" "Eros" "16.84" "N"
      = Except.ok (NearEarthObject.mk "433" (some "Eros")
          (PyFloat.num (mkRat 1684 100)) false []) := by rfl
  exact ⟨h, (neoDiameterNan_iff_emptyOrNanSpelling h).1⟩

/-- C2: for every tabular row from which an NEO is produced, `hazardous` is
true iff the raw `pha` field is exactly the string `"Y"`; any other raw value,
including the empty string, yields `hazardous = false`. -/
theorem neoHazardous_iff_phaY {des nm d pha : String} {neo : NearEarthObject}
    (h : NearEarthObject.init des nm d pha = .ok neo) :
    (neo.hazardous = true ↔ pha = "Y") ∧
    (pha ≠ "Y" → neo.hazardous = false) := by
  obtain ⟨df, _, rfl⟩ := neoInit_ok h
  constructor
  · simp [NearEarthObject.hazardous]
  · intro hne
    simp [NearEarthObject.hazardous, hne]

/-- C2 (witness): concrete rows with `pha = "Y"` and `pha = "y"`. -/
theorem neoHazardous_iff_phaY_witness :
    ((NearEarthObject.mk "12" none PyFloat.nan true []).hazardous = true
      ↔ ("Y" : String) = "Y") ∧
    (("y" : String) ≠ "Y" →
      (NearEarthObject.mk "13" none PyFloat.nan false []).hazardous = false) := by
  have h1 : NearEarthObject.init "12" "" "" "Y"
      = Except.ok (NearEarthObject.mk "12" none PyFloat.nan true []) := by rfl
  have h2 : NearEarthObject.init "13" "" "" "y"
      = Except.ok (NearEarthObject.mk "13" none PyFloat.nan false []) := by rfl
  exact ⟨(neoHazardous_iff_phaY h1).1, (neoHazardous_iff_phaY h2).2⟩

/-- C3: for every tabular row from which an NEO is produced, `name` is absent
iff the raw `name` field is the empty string, and `fullname` is the
designation alone exactly when `name` is absent, else
`"<designation> (<name>)"`. -/
theorem neoName_fullname {des nm d pha : String} {neo : NearEarthObject}
    (h : NearEarthObject.init des nm d pha = .ok neo) :
    (neo.name = none ↔ nm = "") ∧
    (neo.fullname = neo.designation ↔ neo.name = none) ∧
    (∀ s, neo.name = some s →
      neo.fullname = neo.designation ++ " (" ++ s ++ ")") := by
  obtain ⟨df, _, rfl⟩ := neoInit_ok h
  by_cases hnm : nm = ""
  · subst hnm
    refine ⟨by simp [NearEarthObject.name], ?_, ?_⟩
    · simp [NearEarthObject.fullname, NearEarthObject.name,
        NearEarthObject.designation, pyTruthyOptStr]
    · intro s hs
      simp [NearEarthObject.name] at hs
  · have hlen : des ++ " (" ++ nm ++ ")" ≠ des := by
      intro heq
      have hl := congrArg String.length heq
      simp only [String.length_append] at hl
      have h2 : (" (" : String).length = 2 := rfl
      have h3 : (")" : String).length = 1 := rfl
      rw [h2, h3] at hl
      omega
    refine ⟨by simp [NearEarthObject.name, hnm], ?_, ?_⟩
    · simp only [NearEarthObject.fullname, NearEarthObject.name,
        NearEarthObject.designation, if_neg hnm, pyTruthyOptStr]
      rw [if_pos (by simp [hnm])]
      simp [Option.getD, hlen]
    · intro s hs
      simp only [NearEarthObject.name, if_neg hnm] at hs
      cases hs
      simp only [NearEarthObject.fullname, NearEarthObject.name,
        NearEarthObject.designation, if_neg hnm, pyTruthyOptStr]
      rw [if_pos (by simp [hnm])]
      simp [Option.getD]

/-- C3 (witness): a concrete row with a present name. -/
theorem neoName_fullname_witness :
    ((NearEarthObject.mk "1" (some "Ceres") PyFloat.nan false []).name = none
      ↔ ("Ceres" : String) = "") ∧
    ((NearEarthObject.mk "1" (some "Ceres") PyFloat.nan false []).fullname
      = "1" ++ " (" ++ "Ceres" ++ ")") := by
  have h : NearEarthObject.init "1" "Ceres" "" "N"
      = Except.ok (NearEarthObject.mk "1" (some "Ceres") PyFloat.nan false []) := by
    rfl
  refine ⟨(neoName_fullname h).1, ?_⟩
  have h2 := (neoName_fullname h).2.2 "Ceres" rfl
  exact h2

/-- C4 (counterexample): a concrete unlinked `CloseApproach` — `neo` absent —
whose `serialize` raises an `AttributeError` (calling `serialize` on `None`)
instead of producing a result. -/
theorem serializeUnlinked_cex :
    (CloseApproach.mk "2020 AB" ⟨2020, 1, 1, 12, 0⟩ (PyFloat.num 1)
        (PyFloat.num 1) none).neo = none ∧
    (CloseApproach.mk "2020 AB" ⟨2020, 1, 1, 12, 0⟩ (PyFloat.num 1)
        (PyFloat.num 1) none).serialize = Except.error PyError.attributeError := by
  exact ⟨rfl, rfl⟩

/-- C4 (amended): for every `CloseApproach` whose `neo` reference is absent,
`serialize` deterministically fails with an `AttributeError` (the attribute
access `self.neo.serialize` on the absent reference); it does not produce a
placeholder record. -/
theorem serializeUnlinked_attributeError (ca : CloseApproach)
    (h : ca.neo = none) : ca.serialize = Except.error PyError.attributeError := by
  cases ca with
  | mk des t dist vel neo =>
    simp only [CloseApproach.neo] at h
    subst h
    rfl

/-- C4 (witness for the amended theorem): a second concrete unlinked
approach. -/
theorem serializeUnlinked_attributeError_witness :
    (CloseApproach.mk "433" ⟨1900, 1, 1, 12, 11⟩ (PyFloat.num (mkRat 3 10))
        (PyFloat.num (mkRat 11 2)) none).serialize
      = Except.error PyError.attributeError := by
  exact serializeUnlinked_attributeError _ rfl

/-- C5: when any of the four required field names is absent from the columnar
header, `load_approaches` fails with the lookup's `ValueError` whatever the
data rows are — the positions are resolved before any row is processed and no
`CloseApproach` is constructed. -/
theorem loadApproaches_missingField (src : CadSource)
    (h : "des" ∉ src.fields ∨ "cd" ∉ src.fields ∨ "dist" ∉ src.fields ∨
      "v_rel" ∉ src.fields) :
    load_approaches src = Except.error PyError.valueError := by
  unfold load_approaches
  rcases h with h | h | h | h
  · rw [pyIndex_not_mem h, bindExc_error]
  · rcases pyIndex_cases src.fields "des" with ⟨i, hi⟩ | hi
    · rw [hi, bindExc_ok, pyIndex_not_mem h, bindExc_error]
    · rw [hi, bindExc_error]
  · rcases pyIndex_cases src.fields "des" with ⟨i, hi⟩ | hi
    · rw [hi, bindExc_ok]
      rcases pyIndex_cases src.fields "cd" with ⟨j, hj⟩ | hj
      · rw [hj, bindExc_ok, pyIndex_not_mem h, bindExc_error]
      · rw [hj, bindExc_error]
    · rw [hi, bindExc_error]
  · rcases pyIndex_cases src.fields "des" with ⟨i, hi⟩ | hi
    · rw [hi, bindExc_ok]
      rcases pyIndex_cases src.fields "cd" with ⟨j, hj⟩ | hj
      · rw [hj, bindExc_ok]
        rcases pyIndex_cases src.fields "dist" with ⟨k, hk⟩ | hk
        · rw [hk, bindExc_ok, pyIndex_not_mem h, bindExc_error]
        · rw [hk, bindExc_error]
      · rw [hj, bindExc_error]
    · rw [hi, bindExc_error]

/-- C5 (witness): a header missing `v_rel`, with a data row present. -/
theorem loadApproaches_missingField_witness :
    load_approaches ⟨["des", "cd", "dist"], [["433", "1900-Jan-01 12:11", "0.3"]]⟩
      = Except.error PyError.valueError := by
  exact loadApproaches_missingField _ (by decide)

/-- C6: a non-empty, unparseable required numeric field — `diameter` in a
tabular row, `dist` or `v_rel` in a columnar row — makes construction
propagate the parse error, so no entity is produced for that record. -/
theorem malformedNumericFatal
    (des nm d pha des2 t2 dist2 vel2 des3 t3 dist3 vel3 : String)
    (e1 e2 e3 : PyError) (tv2 tv3 : PyDatetime) (dv3 : PyFloat) :
    (d ≠ "" → pyFloat d = Except.error e1 →
      NearEarthObject.init des nm d pha = Except.error e1) ∧
    (cd_to_datetime t2 = Except.ok tv2 → pyFloat dist2 = Except.error e2 →
      CloseApproach.init des2 t2 dist2 vel2 = Except.error e2) ∧
    (cd_to_datetime t3 = Except.ok tv3 → pyFloat dist3 = Except.ok dv3 →
      pyFloat vel3 = Except.error e3 →
      CloseApproach.init des3 t3 dist3 vel3 = Except.error e3) := by
  refine ⟨?_, ?_, ?_⟩
  · intro h1 h2
    unfold NearEarthObject.init
    rw [if_neg h1, h2, bindExc_error]
  · intro h1 h2
    unfold CloseApproach.init
    rw [h1, bindExc_ok, h2, bindExc_error]
  · intro h1 h2 h3
    unfold CloseApproach.init
    rw [h1, bindExc_ok, h2, bindExc_ok, h3, bindExc_error]

/-- C6 (witness): `diameter = "abc"`, `dist = "xyz"` and `v_rel = "qq"` each
abort the corresponding construction with a `ValueError`. -/
theorem malformedNumericFatal_witness :
    NearEarthObject.init "433" "" "abc" "N" = Except.error PyError.valueError ∧
    CloseApproach.init "433" "2020-Jan-01 12:00" "xyz" "5.5"
      = Except.error PyError.valueError ∧
    CloseApproach.init "433" "2020-Jan-01 12:00" "0.3" "qq"
      = Except.error PyError.valueError := by
  refine ⟨?_, ?_, ?_⟩
  · exact (malformedNumericFatal "433" "" "abc" "N" "433" "2020-Jan-01 12:00"
      "xyz" "5.5" "433" "2020-Jan-01 12:00" "0.3" "qq"
      .valueError .valueError .valueError ⟨2020, 1, 1, 12, 0⟩ ⟨2020, 1, 1, 12, 0⟩
      (PyFloat.num (mkRat 3 10))).1 (by decide) (by decide)
  · exact (malformedNumericFatal "433" "" "abc" "N" "433" "2020-Jan-01 12:00"
      "xyz" "5.5" "433" "2020-Jan-01 12:00" "0.3" "qq"
      .valueError .valueError .valueError ⟨2020, 1, 1, 12, 0⟩ ⟨2020, 1, 1, 12, 0⟩
      (PyFloat.num (mkRat 3 10))).2.1 (by decide) (by decide)
  · exact (malformedNumericFatal "433" "" "abc" "N" "433" "2020-Jan-01 12:00"
      "xyz" "5.5" "433" "2020-Jan-01 12:00" "0.3" "qq"
      .valueError .valueError .valueError ⟨2020, 1, 1, 12, 0⟩ ⟨2020, 1, 1, 12, 0⟩
      (PyFloat.num (mkRat 3 10))).2.2 (by decide) (by decide) (by decide)

/-- C9: an empty `dist` or `v_rel` value makes `CloseApproach` construction
raise a `ValueError` — unlike the NEO `diameter` field, where an empty string
becomes the NaN sentinel and construction succeeds. -/
theorem emptyDistanceVelocityFatal (des t dist vel nm pdes pha : String)
    (h : dist = "" ∨ vel = "") :
    CloseApproach.init des t dist vel = Except.error PyError.valueError ∧
    (NearEarthObject.init pdes nm "" pha).map (fun n => n.diameter)
      = Except.ok PyFloat.nan := by
  constructor
  · rcases cd_to_datetime_cases t with ⟨tv, htv⟩ | herr
    · unfold CloseApproach.init
      rw [htv, bindExc_ok]
      rcases h with rfl | rfl
      · have hp : pyFloat "" = Except.error PyError.valueError := by decide
        rw [hp, bindExc_error]
      · rcases pyFloat_cases dist with ⟨dv, hdv⟩ | herr2
        · rw [hdv, bindExc_ok]
          have hp : pyFloat "" = Except.error PyError.valueError := by decide
          rw [hp, bindExc_error]
        · rw [herr2, bindExc_error]
    · unfold CloseApproach.init
      rw [herr, bindExc_error]
  · unfold NearEarthObject.init
    rw [if_pos rfl, bindExc_ok]
    rfl

/-- C9 (witness): an empty `dist` aborts the approach, while an empty NEO
diameter yields the NaN sentinel. -/
theorem emptyDistanceVelocityFatal_witness :
    CloseApproach.init "433" "2020-Jan-01 12:00" "" "5.5"
      = Except.error PyError.valueError ∧
    (NearEarthObject.init "433" "" "" "N").map (fun n => n.diameter)
      = Except.ok PyFloat.nan := by
  exact emptyDistanceVelocityFatal "433" "2020-Jan-01 12:00" "" "5.5" "" "433" "N"
    (Or.inl rfl)

/-- C7: whenever `load_neos` returns a collection, it holds exactly one NEO
per input row, in source order, each built from its row with the designation
taken verbatim from `pdes` — no deduplication of designations happens. -/
theorem loadNeos_onePerRow : ∀ (rows : List NeoRow) (neos : List NearEarthObject),
    load_neos rows = .ok neos →
    neos.length = rows.length ∧
    ∀ (i : Nat) (r : NeoRow), rows[i]? = some r → ∃ neo, neos[i]? = some neo ∧
      NearEarthObject.init r.pdes r.name r.diameter r.pha = .ok neo ∧
      neo.designation = r.pdes := by
  intro rows
  induction rows with
  | nil =>
    intro neos h
    unfold load_neos at h
    cases h
    refine ⟨rfl, ?_⟩
    intro i r hr
    simp at hr
  | cons r rest ih =>
    intro neos h
    unfold load_neos at h
    rcases hinit : NearEarthObject.init r.pdes r.name r.diameter r.pha with e | neo
    · rw [hinit, bindExc_error] at h
      simp at h
    · rw [hinit, bindExc_ok] at h
      rcases hrest : load_neos rest with e | neos'
      · rw [hrest, bindExc_error] at h
        simp at h
      · rw [hrest, bindExc_ok] at h
        cases h
        obtain ⟨hlen, hidx⟩ := ih neos' hrest
        refine ⟨by simp [hlen], ?_⟩
        intro i rr hr
        cases i with
        | zero =>
          rw [List.getElem?_cons_zero] at hr
          cases hr
          refine ⟨neo, List.getElem?_cons_zero, hinit, ?_⟩
          obtain ⟨df, _, rfl⟩ := neoInit_ok hinit
          rfl
        | succ j =>
          rw [List.getElem?_cons_succ] at hr
          rw [List.getElem?_cons_succ]
          exact hidx j rr hr

/-- C7 (witness): two rows sharing a designation still produce two NEOs. -/
theorem loadNeos_onePerRow_witness :
    load_neos [⟨"433", "Eros", "16.84", "N"⟩, ⟨"433", "", "", "Y"⟩]
      = Except.ok
          [NearEarthObject.mk "433" (some "Eros") (PyFloat.num (mkRat 1684 100))
            false [],
           NearEarthObject.mk "433" none PyFloat.nan true []] ∧
    ([NearEarthObject.mk "433" (some "Eros") (PyFloat.num (mkRat 1684 100))
        false [],
      NearEarthObject.mk "433" none PyFloat.nan true []]).length
      = ([⟨"433", "Eros", "16.84", "N"⟩, ⟨"433", "", "", "Y"⟩] : List NeoRow).length := by
  have h : load_neos [⟨"433", "Eros", "16.84", "N"⟩, ⟨"433", "", "", "Y"⟩]
      = Except.ok
          [NearEarthObject.mk "433" (some "Eros") (PyFloat.num (mkRat 1684 100))
            false [],
           NearEarthObject.mk "433" none PyFloat.nan true []] := by rfl
  exact ⟨h, (loadNeos_onePerRow _ _ h).1⟩

/-- Per-row specification of the loop of `load_approaches`: one entity per
row, in order, designation read from position `di`, `neo` initially absent. -/
theorem load_rows_spec (di ti dsti vi : Nat) :
    ∀ (data : List (List String)) (cas : List CloseApproach),
    load_rows di ti dsti vi data = .ok cas →
    cas.length = data.length ∧
    ∀ (i : Nat) (row : List String), data[i]? = some row →
      ∃ ca : CloseApproach, cas[i]? = some ca ∧
        ca.neo = none ∧ row[di]? = some ca._designation := by
  intro data
  induction data with
  | nil =>
    intro cas h
    unfold load_rows at h
    cases h
    refine ⟨rfl, ?_⟩
    intro i row hr
    simp at hr
  | cons row rest ih =>
    intro cas h
    unfold load_rows at h
    rcases hdes : pyGetItem row di with e | des
    · rw [hdes, bindExc_error] at h
      simp at h
    · rw [hdes, bindExc_ok] at h
      rcases ht : pyGetItem row ti with e | t
      · rw [ht, bindExc_error] at h
        simp at h
      · rw [ht, bindExc_ok] at h
        rcases hdist : pyGetItem row dsti with e | dist
        · rw [hdist, bindExc_error] at h
          simp at h
        · rw [hdist, bindExc_ok] at h
          rcases hvel : pyGetItem row vi with e | vel
          · rw [hvel, bindExc_error] at h
            simp at h
          · rw [hvel, bindExc_ok] at h
            rcases hca : CloseApproach.init des t dist vel with e | ca
            · rw [hca, bindExc_error] at h
              simp at h
            · rw [hca, bindExc_ok] at h
              rcases hrest : load_rows di ti dsti vi rest with e | cas'
              · rw [hrest, bindExc_error] at h
                simp at h
              · rw [hrest, bindExc_ok] at h
                cases h
                obtain ⟨hlen, hidx⟩ := ih cas' hrest
                refine ⟨by simp [hlen], ?_⟩
                intro i rr hr
                cases i with
                | zero =>
                  rw [List.getElem?_cons_zero] at hr
                  cases hr
                  obtain ⟨tv, dv, vv, _, _, _, rfl⟩ := caInit_ok hca
                  exact ⟨_, List.getElem?_cons_zero, rfl, pyGetItem_ok hdes⟩
                | succ j =>
                  rw [List.getElem?_cons_succ] at hr
                  rw [List.getElem?_cons_succ]
                  exact hidx j rr hr

/-- C8: whenever `load_approaches` returns a collection, it holds exactly one
`CloseApproach` per data row, in source order, each with its designation taken
verbatim from the row's `des` position and its `neo` reference absent. -/
theorem loadApproaches_onePerRow (src : CadSource) (cas : List CloseApproach)
    (h : load_approaches src = .ok cas) :
    cas.length = src.data.length ∧
    ∀ (i : Nat) (row : List String), src.data[i]? = some row →
      ∃ ca : CloseApproach, cas[i]? = some ca ∧
        ca.neo = none ∧
        ∀ di : Nat, src.fields.findIdx? (fun y => y == "des") = some di →
          row[di]? = some ca._designation := by
  unfold load_approaches at h
  rcases h1 : pyIndex src.fields "des" with e | di
  · rw [h1, bindExc_error] at h
    simp at h
  · rw [h1, bindExc_ok] at h
    rcases h2 : pyIndex src.fields "cd" with e | ti
    · rw [h2, bindExc_error] at h
      simp at h
    · rw [h2, bindExc_ok] at h
      rcases h3 : pyIndex src.fields "dist" with e | dsti
      · rw [h3, bindExc_error] at h
        simp at h
      · rw [h3, bindExc_ok] at h
        rcases h4 : pyIndex src.fields "v_rel" with e | vi
        · rw [h4, bindExc_error] at h
          simp at h
        · rw [h4, bindExc_ok] at h
          obtain ⟨hlen, hidx⟩ := load_rows_spec di ti dsti vi src.data cas h
          refine ⟨hlen, ?_⟩
          intro i row hr
          obtain ⟨ca, hca, hneo, hdes⟩ := hidx i row hr
          refine ⟨ca, hca, hneo, ?_⟩
          intro di' hdi'
          have hfind := pyIndex_ok_findIdx h1
          rw [hfind] at hdi'
          cases hdi'
          exact hdes

/-- C8 (witness): one well-formed columnar row. -/
theorem loadApproaches_onePerRow_witness :
    load_approaches
        ⟨["des", "cd", "dist", "v_rel"],
         [["433", "1900-Jan-01 12:11", "0.3", "5.5"]]⟩
      = Except.ok
          [CloseApproach.mk "433" ⟨1900, 1, 1, 12, 11⟩
            (PyFloat.num (mkRat 3 10)) (PyFloat.num (mkRat 11 2)) none] ∧
    ([CloseApproach.mk "433" ⟨1900, 1, 1, 12, 11⟩
        (PyFloat.num (mkRat 3 10)) (PyFloat.num (mkRat 11 2)) none]).length
      = [["433", "1900-Jan-01 12:11", "0.3", "5.5"]].length := by
  have h : load_approaches
      ⟨["des", "cd", "dist", "v_rel"],
       [["433", "1900-Jan-01 12:11", "0.3", "5.5"]]⟩
      = Except.ok
          [CloseApproach.mk "433" ⟨1900, 1, 1, 12, 11⟩
            (PyFloat.num (mkRat 3 10)) (PyFloat.num (mkRat 11 2)) none] := by rfl
  exact ⟨h, (loadApproaches_onePerRow _ _ h).1⟩

/-- State-passing view of a method call on an NEO: the receiver after the call
paired with the returned value. The bodies of `serialize` and `fullname` only
read attributes and never assign, so the post-state is the receiver itself. -/
def NearEarthObject.serializeCall (n : NearEarthObject) :
    NearEarthObject × List (String × JValue) :=
  (n, n.serialize)

/-- State-passing view of reading `fullname` on an NEO. -/
def NearEarthObject.fullnameCall (n : NearEarthObject) :
    NearEarthObject × String :=
  (n, n.fullname)

/-- C10: `serialize` and `fullname` leave the entity unchanged, and the
serialized mapping has exactly the four expected keys, whose values are the
entity's current fields — absent name as null, the NaN sentinel as-is. -/
theorem neoSerialize_frameAndShape (n : NearEarthObject) :
    ((n.serializeCall).1 = n ∧ (n.fullnameCall).1 = n) ∧
    n.serialize.map Prod.fst
      = ["designation", "name", "diameter_km", "potentially_hazardous"] ∧
    List.lookup "designation" n.serialize = some (JValue.str n.designation) ∧
    List.lookup "name" n.serialize
      = some (match n.name with | none => JValue.null | some s => JValue.str s) ∧
    List.lookup "diameter_km" n.serialize = some (JValue.float n.diameter) ∧
    List.lookup "potentially_hazardous" n.serialize
      = some (JValue.bool n.hazardous) := by
  exact ⟨⟨rfl, rfl⟩, rfl, rfl, rfl, rfl, rfl⟩
